import Mathlib

/-!
Verification of the nixcraft credential core (`nixcraft_auth.py`).

The Python tool drives the multi-hop credential exchange
(Microsoft OAuth code exchange → Xbox Live → XSTS → Minecraft service auth
→ profile fetch) and persists three artifacts under a data directory:
`microsoft_token.json`, `minecraft_token.json` and the raw `access_token`
bearer file.  We embed the tool shallowly: the on-disk store is an explicit
record of three optional artifacts, each network hop's outcome is an input
(`none` models a raised `requests.HTTPError`, i.e. a non-2xx response or a
transport failure caught by the command's `except` block), and every CLI
command becomes a pure function from the store and those outcomes to the
final store, exit code, and list of network requests attempted.
-/

namespace Nixcraft

/-! ### URL query parsing (`urllib.parse.urlparse` / `parse_qs`)

`login` extracts the grant code with
`parse_qs(urlparse(redirect_url).query)`.  We model the pipeline at the
character level: the fragment is stripped at the first `#`, the query is
everything after the first `?` of what remains, the query splits on `&`,
each non-empty chunk splits at its first `=`, chunks without `=` or with an
empty value are dropped (Python's default `keep_blank_values=False`), and
names and values are decoded with `unquote_plus` (`+` to space, `%XX` to
the byte `XX`; Python additionally UTF-8-decodes the resulting byte string,
which only differs from the per-byte decoding here on non-ASCII sequences
and never affects whether a decoded name equals the ASCII string `code`). -/

/-- Split a character list on every occurrence of `sep`
(Python `str.split(sep)`). -/
def splitOnChar (sep : Char) : List Char → List (List Char)
  | [] => [[]]
  | c :: rest =>
    match splitOnChar sep rest with
    | [] => if c = sep then [[], []] else [[c]]
    | g :: gs => if c = sep then [] :: g :: gs else (c :: g) :: gs

/-- Split a character list at the first occurrence of `sep`
(Python `str.split(sep, 1)`); `none` when `sep` does not occur. -/
def splitFirst (sep : Char) : List Char → Option (List Char × List Char)
  | [] => none
  | c :: rest =>
    if c = sep then some ([], rest)
    else (splitFirst sep rest).map (fun p => (c :: p.1, p.2))

/-- Hexadecimal digit value, upper or lower case. -/
def hexVal (c : Char) : Option Nat :=
  if '0' ≤ c ∧ c ≤ '9' then some (c.toNat - '0'.toNat)
  else if 'a' ≤ c ∧ c ≤ 'f' then some (c.toNat - 'a'.toNat + 10)
  else if 'A' ≤ c ∧ c ≤ 'F' then some (c.toNat - 'A'.toNat + 10)
  else none

/-- Percent-decoding of `urllib.parse.unquote`: a `%` followed by two hex
digits becomes the byte they denote; otherwise the `%` is kept verbatim. -/
def percentDecode : List Char → List Char
  | [] => []
  | '%' :: c1 :: c2 :: rest =>
    match hexVal c1, hexVal c2 with
    | some a, some b => Char.ofNat (16 * a + b) :: percentDecode rest
    | _, _ => '%' :: percentDecode (c1 :: c2 :: rest)
  | c :: rest => c :: percentDecode rest

/-- `urllib.parse.unquote_plus`: `+` becomes a space, then percent-decode. -/
def unquote_plus (s : String) : String :=
  String.mk (percentDecode (s.data.map fun c => if c = '+' then ' ' else c))

/-- The `query` component of `urllib.parse.urlparse`: strip the fragment at
the first `#`, then take everything after the first `?`; empty when there
is no `?`. -/
def urlQuery (url : String) : List Char :=
  match splitFirst '?' (url.data.takeWhile (· ≠ '#')) with
  | none => []
  | some p => p.2

/-- One `name=value` chunk of `parse_qsl` with `keep_blank_values=False`:
chunks without `=` and chunks whose value is empty are dropped. -/
def parseChunk (chunk : List Char) : Option (String × String) :=
  match splitFirst '=' chunk with
  | none => none
  | some (name, value) =>
    if value = [] then none
    else some (unquote_plus (String.mk name), unquote_plus (String.mk value))

/-- `parse_qs(urlparse(url).query)` as an association list in insertion
order; a key maps to several pairs when it repeats. -/
def parse_qs (url : String) : List (String × String) :=
  (splitOnChar '&' (urlQuery url)).filterMap parseChunk

/-- The grant code `login` extracts: `params["code"][0]` when `"code" in
params`, `none` otherwise (which makes `login` exit 1). -/
def getCode (url : String) : Option String :=
  (parse_qs url).lookup "code"

/-! ### Wire records

Structured views of the JSON responses the five endpoints return.  A field
the code reads with `.get(key, default)` or `.get(key)` is an `Option`;
a field read with `[key]` is required (a missing required key would raise
`KeyError`, outside the modelled input space of well-formed provider
responses). -/

/-- Response of the Microsoft token endpoint (code exchange and refresh):
`{access_token, refresh_token?, expires_in?}`. -/
structure TokenResponse where
  access_token : String
  refresh_token : Option String
  expires_in : Option Int
deriving DecidableEq, Repr

/-- Response of the Xbox Live auth endpoint: the code reads `["Token"]` and
`["DisplayClaims"]["xui"][0]["uhs"]`. -/
structure XblResponse where
  token : String
  uhs : String
deriving DecidableEq, Repr

/-- Response of the XSTS endpoint: the code reads `["Token"]`. -/
structure XstsResponse where
  token : String
deriving DecidableEq, Repr

/-- Response of the Minecraft service-auth endpoint:
`{access_token, expires_in?}` (the code defaults `expires_in` to 86400). -/
structure McAuthResponse where
  access_token : String
  expires_in : Option Int
deriving DecidableEq, Repr

/-- Response of the profile endpoint: `{id, name, skins?}` (the code
defaults `skins` to `[]`). -/
structure Profile where
  id : String
  name : String
  skins : Option (List String)
deriving DecidableEq, Repr

/-- Outcomes of the four downstream hops of `full_auth_flow` for one run;
`none` models the hop's `raise_for_status` raising `HTTPError`. -/
structure DownstreamNet where
  xbl : Option XblResponse
  xsts : Option XstsResponse
  mc : Option McAuthResponse
  profile : Option Profile
deriving DecidableEq, Repr

/-! ### Persisted state -/

/-- Content of `microsoft_token.json` as written by `login`/`refresh`. -/
structure MsTokenRecord where
  access_token : String
  refresh_token : Option String
  expires_at : Int
deriving DecidableEq, Repr

/-- Content of `minecraft_token.json`, the dict `full_auth_flow` returns. -/
structure McTokenRecord where
  access_token : String
  expires_at : Int
  username : String
  uuid : String
  skins : List String
deriving DecidableEq, Repr

/-- The three artifacts under the auth data directory; `none` means the
file is absent. -/
structure Store where
  microsoft_token : Option MsTokenRecord
  minecraft_token : Option McTokenRecord
  access_token_file : Option String
deriving DecidableEq, Repr

/-- A network request the tool attempts, with the credential material the
code puts in it. -/
inductive NetRequest where
  | tokenExchange (code : String)
  | tokenRefresh (refreshToken : String)
  | xblAuth (rpsTicket : String)
  | xstsAuth (userToken : String)
  | mcAuth (identityToken : String)
  | profileFetch (bearer : String)
deriving DecidableEq, Repr

/-- Result of one CLI command run: final store, process exit code, and the
network requests attempted, in order. -/
structure CmdResult where
  store : Store
  exitCode : Nat
  requests : List NetRequest
deriving DecidableEq, Repr

/-! ### The credential operations -/

/-- `full_auth_flow(ms_access_token)`: Xbox Live auth (RpsTicket
`"d=<token>"`), XSTS auth, Minecraft service auth (identity token
`"XBL3.0 x=<uhs>;<xsts>"`), profile fetch; on success returns the dict
later saved as `minecraft_token.json`, with
`expires_at = now + mc_response.get("expires_in", 86400)` and
`skins = profile.get("skins", [])`.  Returns the requests attempted and
`none` when the first failing hop aborts the chain. -/
def full_auth_flow (now : Int) (msAccessToken : String) (net : DownstreamNet) :
    List NetRequest × Option McTokenRecord :=
  let req1 := NetRequest.xblAuth ("d=" ++ msAccessToken)
  match net.xbl with
  | none => ([req1], none)
  | some xbl =>
    let req2 := NetRequest.xstsAuth xbl.token
    match net.xsts with
    | none => ([req1, req2], none)
    | some xsts =>
      let req3 := NetRequest.mcAuth ("XBL3.0 x=" ++ xbl.uhs ++ ";" ++ xsts.token)
      match net.mc with
      | none => ([req1, req2, req3], none)
      | some mc =>
        let req4 := NetRequest.profileFetch mc.access_token
        match net.profile with
        | none => ([req1, req2, req3, req4], none)
        | some p =>
          ([req1, req2, req3, req4],
           some ⟨mc.access_token, now + mc.expires_in.getD 86400, p.name, p.id,
                 p.skins.getD []⟩)

/-- The `login` command.  `exchange` is the outcome of
`exchange_code_for_token` and `net` the downstream outcomes; `now1` is the
clock at the `microsoft_token.json` save, `now2` the clock inside
`full_auth_flow`.  Order of effects, as in the code: parse the pasted URL
and exit 1 when no `code` parameter is present (before any request); run
the code exchange; save `microsoft_token.json` with
`expires_at = now1 + expires_in.getD 3600`; run `full_auth_flow`; only
after the whole chain succeeded, save `minecraft_token.json` and write the
bearer `access_token` file.  Any `HTTPError` exits 1. -/
def login (now1 now2 : Int) (redirectUrl : String) (exchange : Option TokenResponse)
    (net : DownstreamNet) (st : Store) : CmdResult :=
  match getCode redirectUrl with
  | none => ⟨st, 1, []⟩
  | some code =>
    match exchange with
    | none => ⟨st, 1, [NetRequest.tokenExchange code]⟩
    | some ms =>
      let msRec : MsTokenRecord :=
        ⟨ms.access_token, ms.refresh_token, now1 + ms.expires_in.getD 3600⟩
      let st1 : Store := { st with microsoft_token := some msRec }
      match full_auth_flow now2 ms.access_token net with
      | (reqs, none) => ⟨st1, 1, NetRequest.tokenExchange code :: reqs⟩
      | (reqs, some mc) =>
        ⟨{ st1 with minecraft_token := some mc,
                    access_token_file := some mc.access_token },
         0, NetRequest.tokenExchange code :: reqs⟩

/-- The `refresh` command.  Exits 1 with no request when
`microsoft_token.json` is absent or its `refresh_token` is falsy (`null` or
the empty string); otherwise runs `refresh_microsoft_token`, saves the new
`microsoft_token.json` (carrying the old refresh token forward when the
response omits one, `expires_at = now1 + expires_in.getD 3600`), then runs
the same downstream chain and, only on full success, saves
`minecraft_token.json` and the bearer file.  Any `HTTPError` exits 1. -/
def refresh (now1 now2 : Int) (refreshResp : Option TokenResponse)
    (net : DownstreamNet) (st : Store) : CmdResult :=
  match st.microsoft_token with
  | none => ⟨st, 1, []⟩
  | some ms =>
    match ms.refresh_token with
    | none => ⟨st, 1, []⟩
    | some rt =>
      if rt = "" then ⟨st, 1, []⟩
      else
        match refreshResp with
        | none => ⟨st, 1, [NetRequest.tokenRefresh rt]⟩
        | some newMs =>
          let msRec : MsTokenRecord :=
            ⟨newMs.access_token, some (newMs.refresh_token.getD rt),
             now1 + newMs.expires_in.getD 3600⟩
          let st1 : Store := { st with microsoft_token := some msRec }
          match full_auth_flow now2 newMs.access_token net with
          | (reqs, none) => ⟨st1, 1, NetRequest.tokenRefresh rt :: reqs⟩
          | (reqs, some mc) =>
            ⟨{ st1 with minecraft_token := some mc,
                        access_token_file := some mc.access_token },
             0, NetRequest.tokenRefresh rt :: reqs⟩

/-- Validity line of the `status` command. -/
inductive TokenStatus where
  | valid (hours minutes : Int)
  | expired
deriving DecidableEq, Repr

/-- What `status` prints for a logged-in user. -/
structure StatusReport where
  username : String
  uuid : String
  token : TokenStatus
deriving DecidableEq, Repr

/-- The `status` command: `none` when `minecraft_token.json` is absent
("Not logged in"); otherwise valid with `remaining // 3600` hours and
`(remaining % 3600) // 60` minutes when `expires_at > now`, else expired. -/
def status (now : Int) (st : Store) : Option StatusReport :=
  match st.minecraft_token with
  | none => none
  | some mc =>
    if mc.expires_at > now then
      let remaining := mc.expires_at - now
      some ⟨mc.username, mc.uuid, .valid (remaining / 3600) (remaining % 3600 / 60)⟩
    else
      some ⟨mc.username, mc.uuid, .expired⟩

/-- The `logout` command: unlink each of the three artifacts that exists,
counting removals; never fails. -/
def logout (st : Store) : Store × Nat :=
  (⟨none, none, none⟩,
   (if st.microsoft_token.isSome then 1 else 0) +
   (if st.minecraft_token.isSome then 1 else 0) +
   (if st.access_token_file.isSome then 1 else 0))

/-! ### Token store file permissions

`save_tokens` (and the bearer-file write inside `login`/`refresh`) runs
`open(path, "w")`, writes the content, closes the file, and only then
calls `os.chmod(path, 0o600)`.  We model the timeline of a freshly created
file as the list of observable snapshots (content present?, mode): per
open(2), `open(path, "w")` creates the file with mode `0o666 & ~umask`. -/

/-- One observable snapshot of the saved file: whether the content has
been written yet, and the file mode bits. -/
structure FileSnapshot where
  hasContent : Bool
  mode : Nat
deriving DecidableEq, Repr

/-- Timeline of one `save_tokens` call that creates its file: created
empty at mode `0o666 & ~umask`, content written at that same mode, then
`os.chmod(path, 0o600)`. -/
def save_tokens_modes (umask : Nat) : List FileSnapshot :=
  let createMode := 0o666 &&& (0o777 ^^^ (umask &&& 0o777))
  [⟨false, createMode⟩, ⟨true, createMode⟩, ⟨true, 0o600⟩]

/-- Whether a mode grants read permission to other users. -/
def otherReadable (mode : Nat) : Bool := mode &&& 0o004 != 0

/-- The bearer artifact mirrors the persisted ServiceCredential: the
`access_token` file holds exactly the `access_token` of
`minecraft_token.json`, and both are absent together. -/
def Consistent (st : Store) : Prop :=
  st.access_token_file = st.minecraft_token.map McTokenRecord.access_token

/-! ### Sample fixtures (the spec's end-to-end scenario values) -/

/-- Token-endpoint response `{access_token:"MA", expires_in:3600}` with a
refresh token. -/
def sampleMsResp : TokenResponse := ⟨"MA", some "MR", some 3600⟩

/-- Downstream responses of the end-to-end scenario: XBL token with user
hash `H1`, XSTS token, service token `MC1` for 86400s, profile
`uuid1`/`Steve`. -/
def sampleNet : DownstreamNet :=
  ⟨some ⟨"XBL", "H1"⟩, some ⟨"XSTS1"⟩, some ⟨"MC1", some 86400⟩,
   some ⟨"uuid1", "Steve", some []⟩⟩

/-- A store with all three artifacts from a previous run. -/
def sampleStore : Store :=
  ⟨some ⟨"MA0", some "R0", 50⟩, some ⟨"MC0", 99, "Steve", "uuid1", []⟩, some "MC0"⟩

/-- An empty store (fresh data directory). -/
def emptyStore : Store := ⟨none, none, none⟩

/-- Downstream outcomes where the final hop (profile fetch) fails. -/
def failNet : DownstreamNet :=
  ⟨some ⟨"XBL", "H1"⟩, some ⟨"XSTS1"⟩, some ⟨"MC1", some 86400⟩, none⟩

/-! ### Frame lemmas -/

/-- Every `login` run either exits 1 leaving `minecraft_token.json` and the
bearer file untouched, or exits 0 having written a credential record and
its access token to the bearer file. -/
theorem login_frame (now1 now2 : Int) (url : String) (exch : Option TokenResponse)
    (net : DownstreamNet) (st : Store) :
    ((login now1 now2 url exch net st).exitCode = 1 ∧
     (login now1 now2 url exch net st).store.minecraft_token = st.minecraft_token ∧
     (login now1 now2 url exch net st).store.access_token_file = st.access_token_file) ∨
    ((login now1 now2 url exch net st).exitCode = 0 ∧
     ∃ rec, (login now1 now2 url exch net st).store.minecraft_token = some rec ∧
       (login now1 now2 url exch net st).store.access_token_file = some rec.access_token) := by
  unfold login
  split
  · exact Or.inl ⟨rfl, rfl, rfl⟩
  · split
    · exact Or.inl ⟨rfl, rfl, rfl⟩
    · split
      · exact Or.inl ⟨rfl, rfl, rfl⟩
      · exact Or.inr ⟨rfl, _, rfl, rfl⟩

/-- Every `refresh` run either exits 1 leaving `minecraft_token.json` and
the bearer file untouched, or exits 0 having written a credential record
and its access token to the bearer file. -/
theorem refresh_frame (now1 now2 : Int) (rresp : Option TokenResponse)
    (net : DownstreamNet) (st : Store) :
    ((refresh now1 now2 rresp net st).exitCode = 1 ∧
     (refresh now1 now2 rresp net st).store.minecraft_token = st.minecraft_token ∧
     (refresh now1 now2 rresp net st).store.access_token_file = st.access_token_file) ∨
    ((refresh now1 now2 rresp net st).exitCode = 0 ∧
     ∃ rec, (refresh now1 now2 rresp net st).store.minecraft_token = some rec ∧
       (refresh now1 now2 rresp net st).store.access_token_file = some rec.access_token) := by
  unfold refresh
  split
  · exact Or.inl ⟨rfl, rfl, rfl⟩
  · split
    · exact Or.inl ⟨rfl, rfl, rfl⟩
    · split
      · exact Or.inl ⟨rfl, rfl, rfl⟩
      · split
        · exact Or.inl ⟨rfl, rfl, rfl⟩
        · split
          · exact Or.inl ⟨rfl, rfl, rfl⟩
          · exact Or.inr ⟨rfl, _, rfl, rfl⟩

/-! ### Claim theorems -/

/-- C9: for every pasted redirect URL whose query string contains no
`code` parameter, `login` exits with status 1 before any network request
is attempted and before any persisted state is modified. -/
theorem login_no_code_early_exit (now1 now2 : Int) (url : String)
    (exch : Option TokenResponse) (net : DownstreamNet) (st : Store)
    (h : getCode url = none) :
    login now1 now2 url exch net st = ⟨st, 1, []⟩ := by
  simp [login, h]

/-- C9 witness: a redirect URL carrying only `error=access_denied` makes
`login` exit 1 with no request and an unchanged store. -/
theorem login_no_code_early_exit_witness :
    getCode "https://login.live.com/oauth20_desktop.srf?error=access_denied" = none ∧
    login 7 9 "https://login.live.com/oauth20_desktop.srf?error=access_denied"
      (some sampleMsResp) sampleNet sampleStore = ⟨sampleStore, 1, []⟩ :=
  ⟨by decide,
   login_no_code_early_exit 7 9 _ (some sampleMsResp) sampleNet sampleStore (by decide)⟩

/-- C2: when the provider rejects the stored refresh token (the first hop
of `refresh` raises), `refresh` exits 1 and the provider-token record, the
service-credential record and the bearer file are all left unchanged. -/
theorem refresh_rejected_keeps_state (now1 now2 : Int) (net : DownstreamNet)
    (st : Store) (ms : MsTokenRecord) (rt : String)
    (h1 : st.microsoft_token = some ms) (h2 : ms.refresh_token = some rt)
    (h3 : rt ≠ "") :
    refresh now1 now2 none net st = ⟨st, 1, [NetRequest.tokenRefresh rt]⟩ := by
  simp [refresh, h1, h2, h3]

/-- C2 witness: rejecting the stored refresh token `R0` leaves the sample
store untouched and exits 1. -/
theorem refresh_rejected_keeps_state_witness :
    sampleStore.microsoft_token = some ⟨"MA0", some "R0", 50⟩ ∧
    refresh 7 9 none sampleNet sampleStore
      = ⟨sampleStore, 1, [NetRequest.tokenRefresh "R0"]⟩ :=
  ⟨rfl,
   refresh_rejected_keeps_state 7 9 sampleNet sampleStore ⟨"MA0", some "R0", 50⟩ "R0"
     rfl rfl (by decide)⟩

/-- C7: for every persisted ServiceCredential, `status` reports expired
iff `now ≥ expiresAt` and reports valid (with a remaining duration) iff
`now < expiresAt`. -/
theorem status_expired_iff (now : Int) (st : Store) (mc : McTokenRecord)
    (h : st.minecraft_token = some mc) :
    ((status now st = some ⟨mc.username, mc.uuid, TokenStatus.expired⟩) ↔
      now ≥ mc.expires_at) ∧
    ((∃ hrs mins, status now st = some ⟨mc.username, mc.uuid, TokenStatus.valid hrs mins⟩) ↔
      now < mc.expires_at) := by
  unfold status
  rw [h]
  by_cases hc : mc.expires_at > now
  · simp [hc]
  · simp [hc]
    omega

/-- C7 witness: the sample credential expiring at 99 is reported expired
at time 100. -/
theorem status_expired_iff_witness :
    sampleStore.minecraft_token = some ⟨"MC0", 99, "Steve", "uuid1", []⟩ ∧
    ((status 100 sampleStore = some ⟨"Steve", "uuid1", TokenStatus.expired⟩) ↔
      (100 : Int) ≥ 99) :=
  ⟨rfl, (status_expired_iff 100 sampleStore ⟨"MC0", 99, "Steve", "uuid1", []⟩ rfl).1⟩

/-- C8: `logout` removes exactly the artifacts present beforehand and
reports that count, never fails, and a second consecutive `logout`
removes 0. -/
theorem logout_removes_exactly_present (st : Store) :
    (logout st).2 =
      (if st.microsoft_token.isSome then 1 else 0) +
      (if st.minecraft_token.isSome then 1 else 0) +
      (if st.access_token_file.isSome then 1 else 0) ∧
    (logout st).1.microsoft_token = none ∧
    (logout st).1.minecraft_token = none ∧
    (logout st).1.access_token_file = none ∧
    (logout (logout st).1).2 = 0 :=
  ⟨rfl, rfl, rfl, rfl, rfl⟩

/-- C1: every successful login produces a `minecraft_token.json` whose
`expires_at` is the issue time plus the service-auth response's
`expires_in`, and issue time plus 86400 when that field is omitted. -/
theorem login_service_credential_expiry (now1 now2 : Int) (url c : String)
    (ms : TokenResponse) (xbl : XblResponse) (xsts : XstsResponse)
    (mcr : McAuthResponse) (p : Profile) (st : Store)
    (h : getCode url = some c) :
    (login now1 now2 url (some ms) ⟨some xbl, some xsts, some mcr, some p⟩ st).exitCode = 0 ∧
    (login now1 now2 url (some ms) ⟨some xbl, some xsts, some mcr, some p⟩ st).store.minecraft_token
      = some ⟨mcr.access_token, now2 + mcr.expires_in.getD 86400, p.name, p.id, p.skins.getD []⟩ ∧
    (mcr.expires_in = none →
      (login now1 now2 url (some ms) ⟨some xbl, some xsts, some mcr, some p⟩ st).store.minecraft_token
        = some ⟨mcr.access_token, now2 + 86400, p.name, p.id, p.skins.getD []⟩) := by
  refine ⟨?_, ?_, ?_⟩ <;> simp [login, full_auth_flow, h]
  intro he
  simp [he]

/-- C1 witness: the end-to-end scenario (`code=ABC123`, service token
`MC1` for 86400s) yields `expires_at = 1000 + 86400`. -/
theorem login_service_credential_expiry_witness :
    getCode "https://login.live.com/oauth20_desktop.srf?code=ABC123" = some "ABC123" ∧
    (login 1000 1000 "https://login.live.com/oauth20_desktop.srf?code=ABC123"
        (some sampleMsResp) sampleNet emptyStore).exitCode = 0 ∧
    (login 1000 1000 "https://login.live.com/oauth20_desktop.srf?code=ABC123"
        (some sampleMsResp) sampleNet emptyStore).store.minecraft_token
      = some ⟨"MC1", 1000 + (86400 : Int), "Steve", "uuid1", []⟩ :=
  ⟨by decide,
   (login_service_credential_expiry 1000 1000 _ "ABC123" sampleMsResp ⟨"XBL", "H1"⟩
      ⟨"XSTS1"⟩ ⟨"MC1", some 86400⟩ ⟨"uuid1", "Steve", some []⟩ emptyStore (by decide)).1,
   (login_service_credential_expiry 1000 1000 _ "ABC123" sampleMsResp ⟨"XBL", "H1"⟩
      ⟨"XSTS1"⟩ ⟨"MC1", some 86400⟩ ⟨"uuid1", "Steve", some []⟩ emptyStore (by decide)).2.1⟩

/-- C3: `login` persists the provider-token record right after the code
exchange succeeds; when any downstream hop fails it exits 1 with the new
provider record saved but `minecraft_token.json` and the bearer file
untouched. -/
theorem login_persists_provider_before_service (now1 now2 : Int) (url c : String)
    (ms : TokenResponse) (net : DownstreamNet) (st : Store)
    (h : getCode url = some c)
    (hfail : (full_auth_flow now2 ms.access_token net).2 = none) :
    (login now1 now2 url (some ms) net st).exitCode = 1 ∧
    (login now1 now2 url (some ms) net st).store.microsoft_token
      = some ⟨ms.access_token, ms.refresh_token, now1 + ms.expires_in.getD 3600⟩ ∧
    (login now1 now2 url (some ms) net st).store.minecraft_token = st.minecraft_token ∧
    (login now1 now2 url (some ms) net st).store.access_token_file = st.access_token_file := by
  rcases hEq : full_auth_flow now2 ms.access_token net with ⟨reqs, res⟩
  rw [hEq] at hfail
  cases res with
  | none => simp [login, h, hEq]
  | some mc => simp at hfail

/-- C10: `refresh` persists the new provider-token record before the
downstream chain runs; when a downstream hop fails it exits 1 with the new
provider record saved but `minecraft_token.json` and the bearer file
untouched. -/
theorem refresh_persists_provider_before_chain (now1 now2 : Int)
    (newMs : TokenResponse) (net : DownstreamNet) (st : Store)
    (ms : MsTokenRecord) (rt : String)
    (h1 : st.microsoft_token = some ms) (h2 : ms.refresh_token = some rt)
    (h3 : rt ≠ "")
    (hfail : (full_auth_flow now2 newMs.access_token net).2 = none) :
    (refresh now1 now2 (some newMs) net st).exitCode = 1 ∧
    (refresh now1 now2 (some newMs) net st).store.microsoft_token
      = some ⟨newMs.access_token, some (newMs.refresh_token.getD rt),
              now1 + newMs.expires_in.getD 3600⟩ ∧
    (refresh now1 now2 (some newMs) net st).store.minecraft_token = st.minecraft_token ∧
    (refresh now1 now2 (some newMs) net st).store.access_token_file = st.access_token_file := by
  rcases hEq : full_auth_flow now2 newMs.access_token net with ⟨reqs, res⟩
  rw [hEq] at hfail
  cases res with
  | none => simp [refresh, h1, h2, h3, hEq]
  | some mc => simp at hfail

/-- C6: on a successful refresh the persisted provider record carries the
old refresh token forward when the response omits one, takes the new one
when present, and has `expires_at` equal to issue time plus the response's
`expires_in`, defaulting to 3600 when omitted. -/
theorem refresh_provider_record_update (now1 now2 : Int) (newMs : TokenResponse)
    (net : DownstreamNet) (st : Store) (ms : MsTokenRecord) (rt : String)
    (mcRec : McTokenRecord)
    (h1 : st.microsoft_token = some ms) (h2 : ms.refresh_token = some rt)
    (h3 : rt ≠ "")
    (hok : (full_auth_flow now2 newMs.access_token net).2 = some mcRec) :
    (refresh now1 now2 (some newMs) net st).exitCode = 0 ∧
    (refresh now1 now2 (some newMs) net st).store.microsoft_token
      = some ⟨newMs.access_token, some (newMs.refresh_token.getD rt),
              now1 + newMs.expires_in.getD 3600⟩ ∧
    (newMs.refresh_token = none →
      (refresh now1 now2 (some newMs) net st).store.microsoft_token
        = some ⟨newMs.access_token, some rt, now1 + newMs.expires_in.getD 3600⟩) ∧
    (newMs.expires_in = none →
      (refresh now1 now2 (some newMs) net st).store.microsoft_token
        = some ⟨newMs.access_token, some (newMs.refresh_token.getD rt), now1 + 3600⟩) := by
  rcases hEq : full_auth_flow now2 newMs.access_token net with ⟨reqs, res⟩
  rw [hEq] at hok
  cases res with
  | none => simp at hok
  | some mc =>
    refine ⟨?_, ?_, ?_, ?_⟩ <;> simp [refresh, h1, h2, h3, hEq]
    · intro he
      simp [he]
    · intro he
      simp [he]

/-- C3 witness: with a valid code but a failing profile fetch, `login`
exits 1, the new provider record is saved, and the old credential and
bearer artifacts survive. -/
theorem login_persists_provider_before_service_witness :
    getCode "https://login.live.com/oauth20_desktop.srf?code=ABC123" = some "ABC123" ∧
    (full_auth_flow 9 sampleMsResp.access_token failNet).2 = none ∧
    ((login 7 9 "https://login.live.com/oauth20_desktop.srf?code=ABC123"
        (some sampleMsResp) failNet sampleStore).exitCode = 1 ∧
     (login 7 9 "https://login.live.com/oauth20_desktop.srf?code=ABC123"
        (some sampleMsResp) failNet sampleStore).store.microsoft_token
       = some ⟨"MA", some "MR", 7 + (3600 : Int)⟩ ∧
     (login 7 9 "https://login.live.com/oauth20_desktop.srf?code=ABC123"
        (some sampleMsResp) failNet sampleStore).store.minecraft_token
       = sampleStore.minecraft_token ∧
     (login 7 9 "https://login.live.com/oauth20_desktop.srf?code=ABC123"
        (some sampleMsResp) failNet sampleStore).store.access_token_file
       = sampleStore.access_token_file) :=
  ⟨by decide, rfl,
   login_persists_provider_before_service 7 9
     "https://login.live.com/oauth20_desktop.srf?code=ABC123" "ABC123"
     sampleMsResp failNet sampleStore (by decide) rfl⟩

/-- C10 witness: with stored refresh token `R0` and a failing profile
fetch, `refresh` exits 1 with the new provider record saved and the old
credential and bearer artifacts untouched. -/
theorem refresh_persists_provider_before_chain_witness :
    sampleStore.microsoft_token = some ⟨"MA0", some "R0", 50⟩ ∧
    (full_auth_flow 9 sampleMsResp.access_token failNet).2 = none ∧
    ((refresh 7 9 (some sampleMsResp) failNet sampleStore).exitCode = 1 ∧
     (refresh 7 9 (some sampleMsResp) failNet sampleStore).store.microsoft_token
       = some ⟨"MA", some "MR", 7 + (3600 : Int)⟩ ∧
     (refresh 7 9 (some sampleMsResp) failNet sampleStore).store.minecraft_token
       = sampleStore.minecraft_token ∧
     (refresh 7 9 (some sampleMsResp) failNet sampleStore).store.access_token_file
       = sampleStore.access_token_file) :=
  ⟨rfl, rfl,
   refresh_persists_provider_before_chain 7 9 sampleMsResp failNet sampleStore
     ⟨"MA0", some "R0", 50⟩ "R0" rfl rfl (by decide) rfl⟩

/-- C6 witness: refreshing with response `{MA, MR, 3600}` over a working
chain exits 0 and saves provider record `{MA, MR, expires_at 7+3600}`. -/
theorem refresh_provider_record_update_witness :
    sampleStore.microsoft_token = some ⟨"MA0", some "R0", 50⟩ ∧
    ((refresh 7 9 (some sampleMsResp) sampleNet sampleStore).exitCode = 0 ∧
     (refresh 7 9 (some sampleMsResp) sampleNet sampleStore).store.microsoft_token
       = some ⟨"MA", some "MR", 7 + (3600 : Int)⟩ ∧
     (sampleMsResp.refresh_token = none →
       (refresh 7 9 (some sampleMsResp) sampleNet sampleStore).store.microsoft_token
         = some ⟨"MA", some "R0", 7 + (3600 : Int)⟩) ∧
     (sampleMsResp.expires_in = none →
       (refresh 7 9 (some sampleMsResp) sampleNet sampleStore).store.microsoft_token
         = some ⟨"MA", some "MR", 7 + (3600 : Int)⟩)) :=
  ⟨rfl,
   refresh_provider_record_update 7 9 sampleMsResp sampleNet sampleStore
     ⟨"MA0", some "R0", 50⟩ "R0" ⟨"MC1", 9 + 86400, "Steve", "uuid1", []⟩
     rfl rfl (by decide) rfl⟩

/-- C5: the bearer file mirrors the persisted ServiceCredential: every
successful `login`/`refresh` writes the bearer file with exactly the
`access_token` of the credential record saved in the same run, and
`login`, `refresh` and `logout` all preserve the mirror invariant. -/
theorem bearer_mirrors_service_credential (now1 now2 now3 now4 : Int)
    (url : String) (exch rresp : Option TokenResponse) (net net2 : DownstreamNet)
    (st : Store) (h : Consistent st) :
    Consistent (login now1 now2 url exch net st).store ∧
    Consistent (refresh now3 now4 rresp net2 st).store ∧
    Consistent (logout st).1 ∧
    ((login now1 now2 url exch net st).exitCode = 0 →
      ∃ rec, (login now1 now2 url exch net st).store.minecraft_token = some rec ∧
        (login now1 now2 url exch net st).store.access_token_file = some rec.access_token) ∧
    ((refresh now3 now4 rresp net2 st).exitCode = 0 →
      ∃ rec, (refresh now3 now4 rresp net2 st).store.minecraft_token = some rec ∧
        (refresh now3 now4 rresp net2 st).store.access_token_file = some rec.access_token) := by
  refine ⟨?_, ?_, rfl, ?_, ?_⟩
  · rcases login_frame now1 now2 url exch net st with ⟨_, hm, hf⟩ | ⟨_, rec, hm, hf⟩
    · unfold Consistent at h ⊢
      rw [hm, hf]
      exact h
    · unfold Consistent
      rw [hm, hf]
      rfl
  · rcases refresh_frame now3 now4 rresp net2 st with ⟨_, hm, hf⟩ | ⟨_, rec, hm, hf⟩
    · unfold Consistent at h ⊢
      rw [hm, hf]
      exact h
    · unfold Consistent
      rw [hm, hf]
      rfl
  · intro h0
    rcases login_frame now1 now2 url exch net st with ⟨he, _, _⟩ | ⟨_, rec, hm, hf⟩
    · rw [he] at h0
      simp at h0
    · exact ⟨rec, hm, hf⟩
  · intro h0
    rcases refresh_frame now3 now4 rresp net2 st with ⟨he, _, _⟩ | ⟨_, rec, hm, hf⟩
    · rw [he] at h0
      simp at h0
    · exact ⟨rec, hm, hf⟩

/-- C5 witness: the sample store satisfies the mirror invariant and the
end-to-end login over it keeps it (bearer file ends up `MC1`). -/
theorem bearer_mirrors_service_credential_witness :
    Consistent sampleStore ∧
    Consistent (login 1000 1000 "https://login.live.com/oauth20_desktop.srf?code=ABC123"
      (some sampleMsResp) sampleNet sampleStore).store :=
  ⟨rfl,
   (bearer_mirrors_service_credential 1000 1000 7 9
     "https://login.live.com/oauth20_desktop.srf?code=ABC123"
     (some sampleMsResp) (some sampleMsResp) sampleNet sampleNet sampleStore rfl).1⟩

/-- C4: `save_tokens` writes the content and only afterwards chmods the
file to 0600; under the common umask 022 the freshly created file is
other-readable (mode 0644) while its content is already present, so the
permission restriction is not atomic with the content write, although the
file does end up at mode 0600. -/
theorem save_tokens_chmod_window :
    save_tokens_modes 0o022 = [⟨false, 0o644⟩, ⟨true, 0o644⟩, ⟨true, 0o600⟩] ∧
    (∃ s ∈ save_tokens_modes 0o022, s.hasContent = true ∧ otherReadable s.mode = true) ∧
    (save_tokens_modes 0o022).getLast? = some ⟨true, 0o600⟩ ∧
    otherReadable 0o600 = false := by
  decide

end Nixcraft
